import Mathlib

/-! Verification of the product-catalog storage layer of `go-basic-api-app`.

The repository has two backends behind one storage contract:
* `dummydb/dummydb.go` — an ephemeral in-process slice of `Product`;
* `dynamodb/dynamodb.go` — a persistent DynamoDB-backed catalog.

Shallow embedding conventions:
* Go `int` is modelled as `Int`; Go `float64` prices as `ℚ` (the source only
  compares prices and formats them, and every literal in the repository is a
  short decimal, so ordering and equality agree with the rational reading).
* A Go slice of products is a `List Product`; pointer-receiver methods become
  functions returning the new list next to the result.
* `fmt.Errorf("Product <%v> does not exist", id)` becomes the structured
  error `DbError.notFound id`.
* Calls into the external DynamoDB store are modelled by passing the store
  call's outcome (`Except String …`) as an explicit argument.
-/

/-- Model of `Product` (dummydb.go lines 14-18 and dynamodb.go lines 21-25 declare the
same three fields: `Id int`, `Name string`, `Price float64`; the two structs
differ only in JSON tags, so one Lean structure embeds both). -/
structure Product where
  Id : Int
  Name : String
  Price : ℚ
deriving DecidableEq, Repr

/-- The error value built by `fmt.Errorf("Product <%v> does not exist", id)`
in the ephemeral backend: a not-found error carrying the offending id. -/
inductive DbError where
  | notFound (id : Int)
deriving DecidableEq, Repr

/-- The comparison used by both backends' `GetAll`:
`sort.Slice(xs, func(i, j int) bool { return xs[i].Price > xs[j].Price })`.
`sort.Slice` reorders the slice so that consecutive elements satisfy the
non-strict complement of the `less` function, i.e. price non-increasing;
the Go sort is unstable, so any price-descending permutation is a possible
outcome, and we model the sort by insertion sort on that order. -/
def priceDescOrder (a b : Product) : Prop := b.Price ≤ a.Price

instance : DecidableRel priceDescOrder := fun a b => by
  unfold priceDescOrder; infer_instance

instance : IsTotal Product priceDescOrder :=
  ⟨fun a b => (le_total b.Price a.Price).imp id id⟩

instance : IsTrans Product priceDescOrder :=
  ⟨fun _ _ _ h1 h2 => le_trans h2 h1⟩

/-- The price-descending sort performed inside `GetAll` in both backends. -/
def sortPriceDesc (l : List Product) : List Product :=
  List.insertionSort priceDescOrder l

/-- Model of `Products.GetAll` (dummydb.go lines 28-32): sorts the slice price-descending
with `sort.Slice` and returns it with a nil error.  `sort.Slice` permutes the
shared backing array in place, so the caller's stored sequence is the sorted
one after the call; the second component is that post-call stored sequence. -/
def getAll (pArr : List Product) : (List Product × Option DbError) × List Product :=
  ((sortPriceDesc pArr, none), sortPriceDesc pArr)

/-- Model of `Products.AddProduct` (dummydb.go lines 34-37): appends unconditionally,
always returning a nil error. -/
def addProduct (pArr : List Product) (newProduct : Product) :
    List Product × Option DbError :=
  (pArr ++ [newProduct], none)

/-- Model of `Products.GetProduct` (dummydb.go lines 39-47): linear scan; on the first
element whose `Id` equals `product.Id` it overwrites `*product` with that
element and returns nil; after an unsuccessful scan it returns the not-found
error and leaves `*product` alone.  Result: final value of `*product` and the
error; the receiver slice is never written. -/
def getProduct : List Product → Product → Product × Option DbError
  | [], product => (product, some (.notFound product.Id))
  | p :: rest, product =>
    if product.Id = p.Id then (p, none) else getProduct rest product

/-- Model of `Products.UpdateProduct` (dummydb.go lines 49-57): linear scan; the first
element with matching `Id` is overwritten, in place, with `newProduct`
(`(*pArr)[i] = newProduct`) and nil is returned; otherwise the slice is left
as it was and the not-found error is returned. -/
def updateProduct : List Product → Product → List Product × Option DbError
  | [], newProduct => ([], some (.notFound newProduct.Id))
  | op :: rest, newProduct =>
    if op.Id = newProduct.Id then (newProduct :: rest, none)
    else ((op :: (updateProduct rest newProduct).1), (updateProduct rest newProduct).2)

/-- Model of `Products.DeleteProduct` (dummydb.go lines 59-67): linear scan; the first
element with matching `Id` is removed by
`*pArr = append((*pArr)[:i], (*pArr)[i+1:]...)` (take the prefix before `i`
and the suffix after `i`, preserving order) and nil is returned; otherwise the
slice is untouched and the not-found error is returned. -/
def deleteProduct : List Product → Product → List Product × Option DbError
  | [], p => ([], some (.notFound p.Id))
  | op :: rest, p =>
    if op.Id = p.Id then (rest, none)
    else ((op :: (deleteProduct rest p).1), (deleteProduct rest p).2)

/-- The seed catalog installed by `Initialize` in dummydb.go lines 69-77. -/
def dummydbSeed : List Product :=
  [⟨1, "Apple", mkRat 98 100⟩, ⟨2, "Orange", mkRat 98 100⟩, ⟨3, "Bananas", mkRat 225 100⟩,
   ⟨4, "Frozen Pizza", mkRat 499 100⟩]

/-- The seed products inserted by `enterTestData` in dynamodb.go lines 243-259
(one `AddProduct`/`PutItem` per list element, in order). -/
def dynamodbSeed : List Product :=
  [⟨1, "Apple", mkRat 98 100⟩, ⟨2, "Orange", mkRat 98 100⟩, ⟨3, "Bananas", mkRat 225 100⟩,
   ⟨4, "Frozen Pizza", mkRat 499 100⟩]

/-- Outcome of a call into the dynamodb backend as seen by its caller: a
normal return value or a returned Go error string. -/
inductive DynOutcome (α : Type) where
  | ok (a : α)
  | err (msg : String)
deriving DecidableEq, Repr

/-- Model of `Products.GetAll` (dynamodb.go lines 46-64): scans the table, unmarshals,
and sorts price-descending in memory.  `scanOutcome` is the result of the
`Items.Scan` call, already unmarshalled into products (the unmarshal failure
path is not modelled: the items here are structured values). -/
def dynGetAll (scanOutcome : Except String (List Product)) :
    Except String (List Product) :=
  match scanOutcome with
  | .error e => .error ("Query GetAll failed:\n" ++ e)
  | .ok items => .ok (sortPriceDesc items)

/-- Model of `Products.GetProduct` (dynamodb.go lines 89-115).  `queryOutcome` is the
result of the `Items.Query` call.  The source never checks the `err` returned
by `Query`: the SDK (aws-sdk-go v1) allocates the `QueryOutput` before
sending, so on a failing call `result` is non-nil with nil `Items`, the range
loop runs zero times, and the function falls through to the not-found return,
discarding the underlying cause.  On a successful call the first returned
item (if any) is written to `*product` and returned nil-error, and an empty
result yields the same not-found error. -/
def dynGetProduct (queryOutcome : Except String (List Product)) (id : Int) :
    DynOutcome Product :=
  match queryOutcome with
  | .error _ => .err ("Product <" ++ toString id ++ "> does not exist")
  | .ok [] => .err ("Product <" ++ toString id ++ "> does not exist")
  | .ok (p :: _) => .ok p

/-- Constant `TableName` (dynamodb.go line 39). -/
def TableName : String := "Products"

/-- The outcomes of the external store calls made during the dynamodb
bootstrap, passed explicitly to the bootstrap functions. -/
structure InitEnv where
  sessionOutcome : Except String Unit
  listTablesOutcome : Except String (List String)
  createTableOutcome : Except String Unit
  seedOutcome : Except String Unit

/-- Model of `enterTestData` (dynamodb.go lines 243-259): inserts the products of
`dynamodbSeed` one by one via `AddProduct`; a failing insert is wrapped as
"Error entering test data" and returned. -/
def enterTestData (env : InitEnv) : Except String Unit :=
  match env.seedOutcome with
  | .error e => .error ("Error entering test data: " ++ e)
  | .ok _ => .ok ()

/-- Model of `createTable` (dynamodb.go lines 204-237): creates the table (a failing
`CreateTable` call is returned as an error), then calls `enterTestData()`
discarding its result — the source ignores the returned error — and returns
nil. -/
def createTable (env : InitEnv) : Except String Unit :=
  match env.createTableOutcome with
  | .error e => .error e
  | .ok _ =>
    let _ := enterTestData env
    .ok ()

/-- Model of `tableExists` (dynamodb.go lines 262-276): lists the tables and reports
whether `name` is among them; a failing `ListTables` call is returned as an
error. -/
def tableExists (env : InitEnv) (name : String) : Except String Bool :=
  match env.listTablesOutcome with
  | .error e => .error e
  | .ok names => .ok (names.contains name)

/-- Model of `Initialize` (dynamodb.go lines 169-197): a failing session construction
or a failing `tableExists` is wrapped as "INITIALIZATION ERROR" and returned;
when the table is absent, `createTable()` is called with its result
DISCARDED — the source ignores the returned error — and nil is returned.
(The purely logging `listTables()` call is not modelled.) -/
def initDynamo (env : InitEnv) : Except String Unit :=
  match env.sessionOutcome with
  | .error e => .error ("INITIALIZATION ERROR: " ++ e)
  | .ok _ =>
    match tableExists env TableName with
    | .error e => .error ("INITIALIZATION ERROR: " ++ e)
    | .ok tblExists =>
      if tblExists then .ok ()
      else
        let _ := createTable env
        .ok ()

/-- Least `k` with `d ∣ 10 ^ k`, searched for `k ≤ d` (for `d = 2^a * 5^b`
such a `k` exists in that range); `none` for denominators with other prime
factors, which do not arise from the repository's decimal price literals. -/
def decExponent (d : Nat) : Option Nat :=
  (List.range (d + 1)).find? fun k => 10 ^ k % d == 0

/-- String `s` left-padded with zeros to width `w`. -/
def padZeros (w : Nat) (s : String) : String :=
  String.mk (List.replicate (w - s.length) '0') ++ s

/-- Decimal rendering of the fraction `n / d` (already in lowest terms,
`d ≠ 0`): integer part, and the minimal run of fractional digits when the
denominator divides a power of ten. -/
def natDecimalRepr (n d : Nat) : String :=
  match decExponent d with
  | none => toString n ++ "/" ++ toString d
  | some k =>
    if k = 0 then toString (n / d)
    else toString (n / d) ++ "." ++ padZeros k (toString (n % d * 10 ^ k / d))

/-- Model of Go `fmt`'s `%v` rendering of a float64 carrying a short decimal
value (as all prices in the repository do): `%v` prints the shortest decimal
digit string, with no decimal point for integral values — `0.98`, `2.25`,
`5`. -/
def ratGoRepr (q : ℚ) : String :=
  if q < 0 then "-" ++ natDecimalRepr (-q.num).natAbs q.den
  else natDecimalRepr q.num.natAbs q.den

/-- Model of `Product.String` (dummydb.go lines 20-22 and dynamodb.go lines 27-29; the
two methods are textually identical):
`fmt.Sprintf("<(Id: %v) {%v} @ %v>", p.Id, p.Name, p.Price)`.  Note the
literal braces around the name inside the format string. -/
def productString (p : Product) : String :=
  "<(Id: " ++ toString p.Id ++ ") \x7b" ++ p.Name ++ "\x7d @ " ++
    ratGoRepr p.Price ++ ">"

/-- The rendering claimed by the spec sentence for C8, followed literally:
"<(Id: " then the id, then ") ", then the name, then " @ ", then the price,
then ">", with no other characters added. -/
def productStringClaim (p : Product) : String :=
  "<(Id: " ++ toString p.Id ++ ") " ++ p.Name ++ " @ " ++
    ratGoRepr p.Price ++ ">"

/-- Sanity checks of the `%v` rendering model on the repository's price
values and on integral and negative values. -/
theorem ratGoRepr_values :
    ratGoRepr (mkRat 98 100) = "0.98" ∧ ratGoRepr (mkRat 225 100) = "2.25" ∧
    ratGoRepr (mkRat 499 100) = "4.99" ∧ ratGoRepr 5 = "5" ∧
    ratGoRepr (mkRat (-1) 2) = "-0.5" := by decide

/-! ### Helper lemmas shared by the claim theorems -/

/-- An unsuccessful linear scan: Get on an id matching no element returns the
probe unchanged together with the not-found error. -/
theorem getProduct_not_mem (l : List Product) (probe : Product)
    (h : ∀ q ∈ l, q.Id ≠ probe.Id) :
    getProduct l probe = (probe, some (.notFound probe.Id)) := by
  induction l with
  | nil => rfl
  | cons q rest ih =>
    have hne : ¬ probe.Id = q.Id := fun e => h q (by simp) e.symm
    simp only [getProduct, if_neg hne]
    exact ih fun r hr => h r (by simp [hr])

/-- An unsuccessful linear scan: Update on an id matching no element returns
the list unchanged together with the not-found error. -/
theorem updateProduct_not_mem (l : List Product) (p : Product)
    (h : ∀ q ∈ l, q.Id ≠ p.Id) :
    updateProduct l p = (l, some (.notFound p.Id)) := by
  induction l with
  | nil => rfl
  | cons q rest ih =>
    have hne : ¬ q.Id = p.Id := h q (by simp)
    simp only [updateProduct, if_neg hne, ih fun r hr => h r (by simp [hr])]

/-- An unsuccessful linear scan: Delete on an id matching no element returns
the list unchanged together with the not-found error. -/
theorem deleteProduct_not_mem (l : List Product) (p : Product)
    (h : ∀ q ∈ l, q.Id ≠ p.Id) :
    deleteProduct l p = (l, some (.notFound p.Id)) := by
  induction l with
  | nil => rfl
  | cons q rest ih =>
    have hne : ¬ q.Id = p.Id := h q (by simp)
    simp only [deleteProduct, if_neg hne, ih fun r hr => h r (by simp [hr])]

/-- Get stops at the first element whose id matches the probe. -/
theorem getProduct_first_match (l1 l2 : List Product) (first probe : Product)
    (hfirst : ∀ q ∈ l1, q.Id ≠ probe.Id) (hid : first.Id = probe.Id) :
    getProduct (l1 ++ first :: l2) probe = (first, none) := by
  induction l1 with
  | nil => simp only [List.nil_append, getProduct, if_pos hid.symm]
  | cons q rest ih =>
    have hne : ¬ probe.Id = q.Id := fun e => hfirst q (by simp) e.symm
    simp only [List.cons_append, getProduct, if_neg hne]
    exact ih fun r hr => hfirst r (by simp [hr])

/-- Update overwrites exactly the first element whose id matches. -/
theorem updateProduct_first_match (l1 l2 : List Product) (old p : Product)
    (hfirst : ∀ q ∈ l1, q.Id ≠ p.Id) (hid : old.Id = p.Id) :
    updateProduct (l1 ++ old :: l2) p = (l1 ++ p :: l2, none) := by
  induction l1 with
  | nil => simp only [List.nil_append, updateProduct, if_pos hid]
  | cons q rest ih =>
    have hne : ¬ q.Id = p.Id := hfirst q (by simp)
    have ih2 := ih fun r hr => hfirst r (by simp [hr])
    simp only [List.cons_append, updateProduct, if_neg hne, List.append_eq, ih2]

/-- Delete removes exactly the first element whose id matches, keeping the
prefix and the suffix in order. -/
theorem deleteProduct_first_match (l1 l2 : List Product) (old p : Product)
    (hfirst : ∀ q ∈ l1, q.Id ≠ p.Id) (hid : old.Id = p.Id) :
    deleteProduct (l1 ++ old :: l2) p = (l1 ++ l2, none) := by
  induction l1 with
  | nil => simp only [List.nil_append, deleteProduct, if_pos hid]
  | cons q rest ih =>
    have hne : ¬ q.Id = p.Id := hfirst q (by simp)
    have ih2 := ih fun r hr => hfirst r (by simp [hr])
    simp only [List.cons_append, deleteProduct, if_neg hne, List.append_eq, ih2]

/-! ### Claim theorems -/

/-- Claim C1: for every catalog, List (GetAll) returns a sequence of products
whose prices are non-increasing; the persistent backend's GetAll performs the
same sort on a successful scan; and on the claim's catalog
(Apple 0.98, Orange 0.98, Bananas 2.25, Pizza 4.99) the 4.99 item comes
first, then the 2.25 item, then the two 0.98 items (here: Apple, Orange). -/
theorem c1_list_sorted_desc :
    (∀ pArr : List Product, ((getAll pArr).1.1).Pairwise priceDescOrder) ∧
    (∀ items : List Product, dynGetAll (.ok items) = .ok ((getAll items).1.1)) ∧
    (getAll [⟨1, "Apple", mkRat 98 100⟩, ⟨2, "Orange", mkRat 98 100⟩,
             ⟨3, "Bananas", mkRat 225 100⟩, ⟨4, "Pizza", mkRat 499 100⟩]).1.1 =
      [⟨4, "Pizza", mkRat 499 100⟩, ⟨3, "Bananas", mkRat 225 100⟩,
       ⟨1, "Apple", mkRat 98 100⟩, ⟨2, "Orange", mkRat 98 100⟩] := by
  refine ⟨fun pArr => ?_, fun items => rfl, by decide⟩
  exact List.sorted_insertionSort priceDescOrder pArr

/-- Claim C2 as stated is false: inserting a product whose id already occurs
in the catalog and then getting that id returns the earlier stored entry,
not the freshly inserted one. -/
theorem c2_roundtrip_counterexample :
    (getProduct (addProduct [⟨1, "Apple", mkRat 98 100⟩] ⟨1, "Pear", mkRat 15 10⟩).1
        ⟨1, "", 0⟩).1 = ⟨1, "Apple", mkRat 98 100⟩ ∧
    (⟨1, "Apple", mkRat 98 100⟩ : Product) ≠ ⟨1, "Pear", mkRat 15 10⟩ := by
  decide

/-- Claim C2 amended: on a catalog with no entry for p's id, Insert(p)
followed by Get(p.Id) succeeds and returns p itself. -/
theorem c2_roundtrip_amended (l : List Product) (p probe : Product)
    (hfresh : ∀ q ∈ l, q.Id ≠ p.Id) (hprobe : probe.Id = p.Id) :
    getProduct (addProduct l p).1 probe = (p, none) := by
  have h1 : (addProduct l p).1 = l ++ p :: [] := rfl
  rw [h1]
  exact getProduct_first_match l [] p probe
    (fun q hq e => hfresh q hq (by rw [← hprobe, e])) hprobe.symm

/-- Witness for the amended C2 at a concrete catalog and product. -/
theorem c2_roundtrip_amended_witness :
    getProduct (addProduct [⟨2, "Orange", mkRat 98 100⟩] ⟨1, "Pear", mkRat 15 10⟩).1
      ⟨1, "", 0⟩ = (⟨1, "Pear", mkRat 15 10⟩, none) :=
  c2_roundtrip_amended [⟨2, "Orange", mkRat 98 100⟩] ⟨1, "Pear", mkRat 15 10⟩
    ⟨1, "", 0⟩ (by decide) (by decide)

/-- Claim C3: on an id absent from the ephemeral catalog, Get returns the
probe unchanged, and Update and Delete return the catalog unchanged, each
with the not-found error carrying that id. -/
theorem c3_notfound_contract (l : List Product) (id : Int)
    (habs : ∀ q ∈ l, q.Id ≠ id) :
    (∀ probe : Product, probe.Id = id →
      getProduct l probe = (probe, some (.notFound id))) ∧
    (∀ p : Product, p.Id = id →
      updateProduct l p = (l, some (.notFound id))) ∧
    (∀ p : Product, p.Id = id →
      deleteProduct l p = (l, some (.notFound id))) := by
  refine ⟨fun probe hp => ?_, fun p hp => ?_, fun p hp => ?_⟩
  · subst hp; exact getProduct_not_mem l probe habs
  · subst hp; exact updateProduct_not_mem l p habs
  · subst hp; exact deleteProduct_not_mem l p habs

/-- Witness for C3 on the seed catalog and the absent id 7. -/
theorem c3_notfound_contract_witness :
    getProduct dummydbSeed ⟨7, "", 0⟩ = (⟨7, "", 0⟩, some (.notFound 7)) ∧
    updateProduct dummydbSeed ⟨7, "Gone", mkRat 1 1⟩ =
      (dummydbSeed, some (.notFound 7)) ∧
    deleteProduct dummydbSeed ⟨7, "Gone", mkRat 1 1⟩ =
      (dummydbSeed, some (.notFound 7)) := by
  obtain ⟨h1, h2, h3⟩ := c3_notfound_contract dummydbSeed 7 (by decide)
  exact ⟨h1 ⟨7, "", 0⟩ rfl, h2 ⟨7, "Gone", mkRat 1 1⟩ rfl, h3 ⟨7, "Gone", mkRat 1 1⟩ rfl⟩

/-- Claim C4: on a catalog containing p's id, Update(p) overwrites exactly
the first matching entry; the entry keeps its id (p carries the same id),
every other entry is unchanged, and the count is unchanged. -/
theorem c4_update_in_place (l1 l2 : List Product) (old p : Product)
    (hfirst : ∀ q ∈ l1, q.Id ≠ p.Id) (hid : old.Id = p.Id) :
    updateProduct (l1 ++ old :: l2) p = (l1 ++ p :: l2, none) ∧
    p.Id = old.Id ∧
    (l1 ++ p :: l2).length = (l1 ++ old :: l2).length :=
  ⟨updateProduct_first_match l1 l2 old p hfirst hid, hid.symm, by simp⟩

/-- Witness for C4: the spec's example update of id 3 on the seed catalog. -/
theorem c4_update_in_place_witness :
    updateProduct dummydbSeed ⟨3, "Bananas!", mkRat 250 100⟩ =
      ([⟨1, "Apple", mkRat 98 100⟩, ⟨2, "Orange", mkRat 98 100⟩,
        ⟨3, "Bananas!", mkRat 250 100⟩, ⟨4, "Frozen Pizza", mkRat 499 100⟩],
       none) :=
  (c4_update_in_place
    [⟨1, "Apple", mkRat 98 100⟩, ⟨2, "Orange", mkRat 98 100⟩]
    [⟨4, "Frozen Pizza", mkRat 499 100⟩]
    ⟨3, "Bananas", mkRat 225 100⟩ ⟨3, "Bananas!", mkRat 250 100⟩
    (by decide) (by decide)).1

/-- Claim C5: Delete on a catalog with exactly one entry for the id removes
exactly that entry, keeping the remaining entries in order and shrinking the
size from N to N-1, and a second Delete of the same id returns the not-found
error leaving the catalog unchanged. -/
theorem c5_delete_shrinks_exactly_one (l1 l2 : List Product) (old p : Product)
    (h1 : ∀ q ∈ l1, q.Id ≠ p.Id) (h2 : ∀ q ∈ l2, q.Id ≠ p.Id)
    (hid : old.Id = p.Id) :
    deleteProduct (l1 ++ old :: l2) p = (l1 ++ l2, none) ∧
    (l1 ++ l2).length + 1 = (l1 ++ old :: l2).length ∧
    deleteProduct (l1 ++ l2) p = (l1 ++ l2, some (.notFound p.Id)) := by
  refine ⟨deleteProduct_first_match l1 l2 old p h1 hid, by simp [Nat.add_assoc], ?_⟩
  refine deleteProduct_not_mem (l1 ++ l2) p fun q hq => ?_
  rcases List.mem_append.1 hq with h | h
  · exact h1 q h
  · exact h2 q h

/-- Witness for C5: deleting id 3 from the seed catalog, then deleting it
again. -/
theorem c5_delete_shrinks_exactly_one_witness :
    deleteProduct dummydbSeed ⟨3, "", 0⟩ =
      ([⟨1, "Apple", mkRat 98 100⟩, ⟨2, "Orange", mkRat 98 100⟩,
        ⟨4, "Frozen Pizza", mkRat 499 100⟩], none) ∧
    deleteProduct [⟨1, "Apple", mkRat 98 100⟩, ⟨2, "Orange", mkRat 98 100⟩,
        ⟨4, "Frozen Pizza", mkRat 499 100⟩] ⟨3, "", 0⟩ =
      ([⟨1, "Apple", mkRat 98 100⟩, ⟨2, "Orange", mkRat 98 100⟩,
        ⟨4, "Frozen Pizza", mkRat 499 100⟩], some (.notFound 3)) := by
  obtain ⟨h1, _, h3⟩ := c5_delete_shrinks_exactly_one
    [⟨1, "Apple", mkRat 98 100⟩, ⟨2, "Orange", mkRat 98 100⟩]
    [⟨4, "Frozen Pizza", mkRat 499 100⟩]
    ⟨3, "Bananas", mkRat 225 100⟩ ⟨3, "", 0⟩
    (by decide) (by decide) (by decide)
  exact ⟨h1, h3⟩

/-- Claim C6 as stated is false: GetAll sorts the shared backing array in
place (`sort.Slice` on the slice receiver), so on a catalog that is not
already price-descending the stored sequence after the call differs from the
one before. -/
theorem c6_getall_mutates_counterexample :
    (getAll [⟨1, "Apple", mkRat 98 100⟩, ⟨3, "Bananas", mkRat 225 100⟩]).2 ≠
      [⟨1, "Apple", mkRat 98 100⟩, ⟨3, "Bananas", mkRat 225 100⟩] := by
  decide

/-- Claim C6 amended: after GetAll the stored sequence is the returned
price-descending sequence — a permutation of the original catalog holding
the same elements — rather than the original stored order. -/
theorem c6_getall_inplace_amended (pArr : List Product) :
    (getAll pArr).2 = (getAll pArr).1.1 ∧
    List.Perm (getAll pArr).2 pArr ∧
    ((getAll pArr).2).Pairwise priceDescOrder :=
  ⟨rfl, List.perm_insertionSort priceDescOrder pArr,
    List.sorted_insertionSort priceDescOrder pArr⟩

/-- Claim C7 names the spec's intent, but the code drops two errors: the
persistent GetProduct never checks the error returned by its Query call — a
failing read is indistinguishable from an empty result and is misreported as
the not-found error with the underlying cause discarded, never surfaced as a
storage error — and Initialize calls createTable() discarding its result, so
a failed table creation still reports successful startup, even though
createTable itself did return the error. -/
theorem c7_bootstrap_errors_dropped :
    (∀ e : String, ∀ id : Int,
      dynGetProduct (.error e) id = dynGetProduct (.ok []) id) ∧
    dynGetProduct (.error "connection refused") 7 =
      .err "Product <7> does not exist" ∧
    initDynamo ⟨.ok (), .ok [], .error "table creation failed", .ok ()⟩ = .ok () ∧
    createTable ⟨.ok (), .ok [], .error "table creation failed", .ok ()⟩ =
      .error "table creation failed" :=
  ⟨fun _ _ => rfl, by decide, rfl, rfl⟩

/-- Claim C8 as stated is false: the format string wraps the name in literal
braces, so the rendering of (1, Apple, 0.98) is "<(Id: 1) {Apple} @ 0.98>"
and not the claimed "<(Id: 1) Apple @ 0.98>". -/
theorem c8_render_counterexample :
    productString ⟨1, "Apple", mkRat 98 100⟩ ≠
      productStringClaim ⟨1, "Apple", mkRat 98 100⟩ ∧
    productString ⟨1, "Apple", mkRat 98 100⟩ = "<(Id: 1) \x7bApple\x7d @ 0.98>" := by
  decide

/-- Claim C8 amended: the rendering follows the claimed template except that
the name is additionally enclosed in literal braces. -/
theorem c8_render_amended (p : Product) :
    productString p =
      "<(Id: " ++ toString p.Id ++ ") " ++ ("\x7b" ++ p.Name ++ "\x7d") ++
        " @ " ++ ratGoRepr p.Price ++ ">" := by
  have h1 : (") \x7b" : String) = ") " ++ "\x7b" := rfl
  have h2 : ("\x7d @ " : String) = "\x7d" ++ " @ " := rfl
  simp only [productString, h1, h2, String.append_assoc]

/-- Claim C9: the ephemeral backend's fixed seed set equals, as a list of
(id, name, price) triples, the seed set the persistent bootstrap inserts
after creating the table. -/
theorem c9_seed_sets_equal :
    dummydbSeed.map (fun p => (p.Id, p.Name, p.Price)) =
      dynamodbSeed.map (fun p => (p.Id, p.Name, p.Price)) ∧
    dummydbSeed = dynamodbSeed :=
  ⟨rfl, rfl⟩

/-- Claim C10: on a catalog where the id occurs more than once (reachable
since Insert appends unconditionally), Get returns, Update overwrites, and
Delete removes exactly the first matching entry in stored order; the later
duplicates are untouched. -/
theorem c10_first_match_semantics (l1 l2 : List Product) (first u probe : Product)
    (hfirst : ∀ q ∈ l1, q.Id ≠ first.Id)
    (hdup : ∃ q ∈ l2, q.Id = first.Id)
    (hprobe : probe.Id = first.Id) (hu : u.Id = first.Id) :
    getProduct (l1 ++ first :: l2) probe = (first, none) ∧
    updateProduct (l1 ++ first :: l2) u = (l1 ++ u :: l2, none) ∧
    deleteProduct (l1 ++ first :: l2) probe = (l1 ++ l2, none) := by
  refine ⟨?_, ?_, ?_⟩
  · exact getProduct_first_match l1 l2 first probe
      (fun q hq e => hfirst q hq (by rw [← hprobe, e])) hprobe.symm
  · exact updateProduct_first_match l1 l2 first u
      (fun q hq e => hfirst q hq (by rw [← hu, e])) hu.symm
  · exact deleteProduct_first_match l1 l2 first probe
      (fun q hq e => hfirst q hq (by rw [← hprobe, e])) hprobe.symm

/-- Witness for C10 on a two-entry catalog whose entries share id 1. -/
theorem c10_first_match_semantics_witness :
    getProduct [⟨1, "Apple", mkRat 98 100⟩, ⟨1, "Pear", mkRat 15 10⟩] ⟨1, "", 0⟩ =
      (⟨1, "Apple", mkRat 98 100⟩, none) ∧
    updateProduct [⟨1, "Apple", mkRat 98 100⟩, ⟨1, "Pear", mkRat 15 10⟩]
        ⟨1, "Apfel", mkRat 2 1⟩ =
      ([⟨1, "Apfel", mkRat 2 1⟩, ⟨1, "Pear", mkRat 15 10⟩], none) ∧
    deleteProduct [⟨1, "Apple", mkRat 98 100⟩, ⟨1, "Pear", mkRat 15 10⟩] ⟨1, "", 0⟩ =
      ([⟨1, "Pear", mkRat 15 10⟩], none) :=
  c10_first_match_semantics [] [⟨1, "Pear", mkRat 15 10⟩]
    ⟨1, "Apple", mkRat 98 100⟩ ⟨1, "Apfel", mkRat 2 1⟩ ⟨1, "", 0⟩
    (by decide) (by decide) (by decide) (by decide)
